import Mathlib

set_option maxRecDepth 10000

deriving instance DecidableEq for Except

/-!
# Verification of the CyberPower PDU device-control library

This file embeds, as executable Lean definitions, the device-control core of
the `cyberpower_pdu` Python package:

* `CyberPowerPDUHardware` (src/cyberpower_pdu/__init__.py) — the puresnmp-based
  SNMP client, modelled by the `Snmp*` definitions over `SnmpPDU`;
* `AsyncCyberPowerPDUHardware` (src/cyberpower_pdu/async_api.py) — the
  pysnmp-based SNMP client, modelled by the `Async*` definitions over
  `AsyncSnmpPDU`;
* `AsyncTelnetCyberPowerPDUHardware` (src/cyberpower_pdu/telnet_api.py) — the
  Telnet client, modelled by the `telnet*` definitions over `TelnetPDU`,
  together with a faithful model of its regex-based outlet-state parser.

Python exceptions are modelled by the `PyError` type (one constructor per
Python exception class raised by the code, carrying the exact message the
code formats).  Network traffic is modelled by explicit effect traces
(`NetOp` for SNMP, counted queries for Telnet), and the device on the other
end of the wire is modelled as a pure function from OID to returned integer
(SNMP) or as a list of response pages (Telnet).  Python `int` is unbounded,
so indices and counts are `Int`.
-/

/-- Python exceptions raised by the library, by exception class.  The spec's
error taxonomy maps onto these as: `NotInitializedError` = the
`runtimeError` raised by the `number_of_outlets` property, `OutOfRangeError`
and `UnexpectedValueError` = `valueError` (distinguished by message),
`UnsupportedOperationError` = `notImplementedError`, `UnsupportedTypeError` =
`typeError`. -/
inductive PyError where
  | runtimeError (msg : String)
  | valueError (msg : String)
  | notImplementedError (msg : String)
  | typeError (msg : String)
  | keyError (key : Int)
  deriving DecidableEq, Repr

/-- Message of the `RuntimeError` raised by the `number_of_outlets` property
of both hardware clients when the cached count is still `0`. -/
def notInitMessage : String :=
  "The `initialize` must be called to populate the `number_of_outlets` property"

/-- The "not initialized" error (spec name: `NotInitializedError`). -/
def notInitError : PyError := .runtimeError notInitMessage

/-- Enum `OutletCommand` (identical in `__init__.py`, `async_api.py` and
`telnet_api.py`): IMMEDIATE_ON = 1, IMMEDIATE_OFF = 2, IMMEDIATE_REBOOT = 3.
The spec calls these TurnOn, TurnOff, Reboot. -/
inductive OutletCommand where
  | IMMEDIATE_ON
  | IMMEDIATE_OFF
  | IMMEDIATE_REBOOT
  deriving DecidableEq, Repr

/-- The `.value` of each `OutletCommand` enum member. -/
def OutletCommand.value : OutletCommand → Int
  | .IMMEDIATE_ON => 1
  | .IMMEDIATE_OFF => 2
  | .IMMEDIATE_REBOOT => 3

/-- Method `OutletCommand.to_telnet_action` of `telnet_api.py`. -/
def OutletCommand.to_telnet_action : OutletCommand → String
  | .IMMEDIATE_ON => "on"
  | .IMMEDIATE_OFF => "off"
  | .IMMEDIATE_REBOOT => "reboot"

/-- One SNMP wire operation, for the effect traces of the SNMP clients. -/
inductive NetOp where
  | get (oid : String)
  | set (oid : String) (value : Int)
  deriving DecidableEq, Repr

/-- OID of ePDUOutletDevNumCntrlOutlets (outlet count). -/
def outletCountOid : String := ".1.3.6.1.4.1.3808.1.1.3.3.1.3.0"

/-- OID of ePDULoadDevNumBanks (bank count). -/
def bankCountOid : String := ".1.3.6.1.4.1.3808.1.1.3.2.1.4.0"

/-- OID of ePDUOutletStatusOutletState for one outlet: the outlet index is
string-formatted onto the base address. -/
def outletStatusOid (outlet : Int) : String :=
  s!".1.3.6.1.4.1.3808.1.1.3.3.5.1.1.4.{outlet}"

/-- OID of ePDUOutletControlOutletCommand for one outlet. -/
def outletControlOid (outlet : Int) : String :=
  s!".1.3.6.1.4.1.3808.1.1.3.3.3.1.1.4.{outlet}"

/-- OID of ePDU2BankStatusLoad for one bank. -/
def bankLoadOid (bank : Int) : String :=
  s!".1.3.6.1.4.1.3808.1.1.6.5.4.1.5.{bank}"

/-- The `number_of_outlets` property shared by all three hardware clients:
raises `RuntimeError` when the cached count is `0`, else returns it. -/
def numberOfOutletsProp (cached : Int) : Except PyError Int :=
  if cached = 0 then .error notInitError else .ok cached

/-- Method `__valid_outlet_index` (identical in `__init__.py`,
`async_api.py` and `telnet_api.py`): the Python chained comparison
`0 < outlet <= self.number_of_outlets` first evaluates `0 < outlet` and only
when that is true evaluates the `number_of_outlets` property (which may
raise `RuntimeError`). -/
def validOutletIndex (cached : Int) (outlet : Int) : Except PyError Bool :=
  if 0 < outlet then
    (numberOfOutletsProp cached).map fun n => decide (outlet ≤ n)
  else
    .ok false

/-- Method `__get_outlet_value_error` (identical in all three clients):
builds the out-of-range `ValueError`.  Its f-string reads the
`number_of_outlets` property, so constructing the error itself raises
`RuntimeError` when the count is still `0`. -/
def outletValueError (cached : Int) (outlet : Int) : Except PyError PyError :=
  (numberOfOutletsProp cached).map fun n =>
    .valueError s!"Invalid outlet value of: {outlet}. Valid outlet values are 1 to {n}"

/-- The outlet-state decode shared by `CyberPowerPDUHardware.get_outlet_state`
and `async_api.get_outlet_state`: `match int(response): 1 -> True, 2 ->
False, _ -> raise ValueError(...)`. -/
def decodeOutletState (wire : Int) : Except PyError Bool :=
  if wire = 1 then .ok true
  else if wire = 2 then .ok false
  else .error (.valueError s!"Received unexpected value for outlet state: {wire}")

/-! ## The puresnmp SNMP client (`CyberPowerPDUHardware`, `__init__.py`)

The client's only state relevant to the core operations is the cached
`__number_of_outlets` (0 until `initialize` runs).  An SNMP device is a pure
function `String → Int` giving the integer decoded from the response to a
get on an OID; every operation returns its result together with the list of
wire operations it performed. -/

/-- State of `CyberPowerPDUHardware`: the cached `__number_of_outlets`. -/
structure SnmpPDU where
  number_of_outlets : Int
  deriving DecidableEq, Repr

/-- The state of a freshly constructed, never-initialized client. -/
def snmpUninit : SnmpPDU := ⟨0⟩

/-- Property `CyberPowerPDUHardware.number_of_outlets`. -/
def snmpNumberOfOutlets (s : SnmpPDU) : Except PyError Int :=
  numberOfOutletsProp s.number_of_outlets

/-- Method `CyberPowerPDUHardware.initialize`: reads the outlet count OID and
caches the result. -/
def snmpSetup (device : String → Int) : SnmpPDU × List NetOp :=
  (⟨device outletCountOid⟩, [.get outletCountOid])

/-- Method `CyberPowerPDUHardware.close`: performs no wire traffic and does
not touch the cached count (the body is a single debug log line). -/
def snmpClose (s : SnmpPDU) : SnmpPDU := s

/-- Method `CyberPowerPDUHardware.get_outlet_state`. -/
def snmpGetOutletState (s : SnmpPDU) (device : String → Int) (outlet : Int) :
    Except PyError Bool × List NetOp :=
  match validOutletIndex s.number_of_outlets outlet with
  | .error e => (.error e, [])
  | .ok true =>
      (decodeOutletState (device (outletStatusOid outlet)), [.get (outletStatusOid outlet)])
  | .ok false =>
      match outletValueError s.number_of_outlets outlet with
      | .error e => (.error e, [])
      | .ok e => (.error e, [])

/-- Method `CyberPowerPDUHardware.send_outlet_command`. -/
def snmpSendOutletCommand (s : SnmpPDU) (device : String → Int) (outlet : Int)
    (command : OutletCommand) : Except PyError Unit × List NetOp :=
  match validOutletIndex s.number_of_outlets outlet with
  | .error e => (.error e, [])
  | .ok true =>
      (.ok (), [.set (outletControlOid outlet) command.value])
  | .ok false =>
      match outletValueError s.number_of_outlets outlet with
      | .error e => (.error e, [])
      | .ok e => (.error e, [])

/-- Helper for `get_all_outlet_states`: the list comprehension
`[await self.get_outlet_state(outlet) for outlet in outlets]`, which raises
the first exception encountered. -/
def snmpGetStatesList (s : SnmpPDU) (device : String → Int) :
    List Int → Except PyError (List Bool) × List NetOp
  | [] => (.ok [], [])
  | o :: rest =>
    match snmpGetOutletState s device o with
    | (.error e, t) => (.error e, t)
    | (.ok b, t) =>
      match snmpGetStatesList s device rest with
      | (.error e, t2) => (.error e, t ++ t2)
      | (.ok bs, t2) => (.ok (b :: bs), t ++ t2)

/-- The Python iteration space `range(1, n + 1)` as a list of `Int`. -/
def outletRange (n : Int) : List Int :=
  (List.range n.toNat).map fun k => Int.ofNat k + 1

/-- Method `CyberPowerPDUHardware.get_all_outlet_states`: iterates
`range(1, self.number_of_outlets + 1)` (the property may raise) and collects
`get_outlet_state` of each outlet. -/
def snmpGetAllOutletStates (s : SnmpPDU) (device : String → Int) :
    Except PyError (List Bool) × List NetOp :=
  match snmpNumberOfOutlets s with
  | .error e => (.error e, [])
  | .ok n => snmpGetStatesList s device (outletRange n)

/-- Private method `CyberPowerPDUHardware.__get_bank_load`: no index
validation at all; reads the bank-load OID and divides by 10.  Python float
division of the small integers involved is modelled as exact rational
division. -/
def snmpGetBankLoadRaw (device : String → Int) (bank : Int) :
    Except PyError Rat × List NetOp :=
  (.ok ((device (bankLoadOid bank) : Rat) / 10), [.get (bankLoadOid bank)])

/-! ## The pysnmp SNMP client (`AsyncCyberPowerPDUHardware`, `async_api.py`) -/

/-- State of `AsyncCyberPowerPDUHardware`: cached `__number_of_banks` and
`__number_of_outlets`, both 0 until `initialize` runs. -/
structure AsyncSnmpPDU where
  number_of_banks : Int
  number_of_outlets : Int
  deriving DecidableEq, Repr

/-- The state of a freshly constructed, never-initialized async client. -/
def asyncUninit : AsyncSnmpPDU := ⟨0, 0⟩

/-- Method `AsyncCyberPowerPDUHardware.initialize`: reads the bank-count OID
then the outlet-count OID and caches both. -/
def asyncSetup (device : String → Int) : AsyncSnmpPDU × List NetOp :=
  (⟨device bankCountOid, device outletCountOid⟩, [.get bankCountOid, .get outletCountOid])

/-- Property `AsyncCyberPowerPDUHardware.number_of_outlets`. -/
def asyncNumberOfOutlets (s : AsyncSnmpPDU) : Except PyError Int :=
  numberOfOutletsProp s.number_of_outlets

/-- Message of the `ValueError` raised by
`AsyncCyberPowerPDUHardware.get_bank_load` on an out-of-range bank.  The
source builds it from an f-string for the first half but a PLAIN string
literal for the second half, so the emitted text ends with the literal
characters `{self.__number_of_banks}` — the cached bank count is never
interpolated into the message. -/
def asyncBankLoadMessage (bank : Int) : String :=
  s!"Invalid bank value of: {bank}. " ++
    "Valid bank values are 1 to \x7bself.__number_of_banks\x7d"

/-- Method `AsyncCyberPowerPDUHardware.get_bank_load`: validates
`0 < bank <= self.__number_of_banks` against the raw field (not the
property), then reads the bank-load OID and divides by 10 (modelled as exact
rational division). -/
def asyncGetBankLoad (s : AsyncSnmpPDU) (device : String → Int) (bank : Int) :
    Except PyError Rat × List NetOp :=
  if 0 < bank ∧ bank ≤ s.number_of_banks then
    (.ok ((device (bankLoadOid bank) : Rat) / 10), [.get (bankLoadOid bank)])
  else
    (.error (.valueError (asyncBankLoadMessage bank)), [])

/-- Method `AsyncCyberPowerPDUHardware.get_outlet_state`: validates the
outlet index, then delegates to the module-level `get_outlet_state`, whose
decode is `decodeOutletState`. -/
def asyncGetOutletState (s : AsyncSnmpPDU) (device : String → Int) (outlet : Int) :
    Except PyError Bool × List NetOp :=
  match validOutletIndex s.number_of_outlets outlet with
  | .error e => (.error e, [])
  | .ok true =>
      (decodeOutletState (device (outletStatusOid outlet)), [.get (outletStatusOid outlet)])
  | .ok false =>
      match outletValueError s.number_of_outlets outlet with
      | .error e => (.error e, [])
      | .ok e => (.error e, [])

/-! ## The Telnet client (`AsyncTelnetCyberPowerPDUHardware`, `telnet_api.py`)

### The outlet-state parser

`get_outlet_states` runs `re.findall` with the pattern
`(\d+)\s+\w+\d+\s+(On|Off)` over each response page.  For this particular
pattern, Python's backtracking search is equivalent to the following
deterministic scan, proved piece by piece:

* `\d+` (group 1): the run must be the maximal digit run at the match start,
  because any shorter choice leaves a digit as the next character, which can
  never satisfy the following `\s+` (digits are not whitespace).
* each `\s+`: likewise maximal, because a shorter choice leaves a whitespace
  character where the following token (`\w+` or the literal `O`) requires a
  non-whitespace character.
* `\w+\d+`: every successful split ends exactly at the end of the maximal
  word run (a split ending earlier leaves a word character where the
  following `\s+` requires whitespace), so the compound succeeds iff that
  maximal run has length at least 2 and ends in a digit.
* `(On|Off)`: a literal two-way alternation, tried in order; the two
  alternatives are prefix-disjoint.

`re.findall` scans start positions left to right and resumes after the end
of each match; `findallAux` does exactly that.  Character classes are the
ASCII behaviour of Python's `\d`, `\s`, `\w` (every character occurring in
the device's responses is ASCII). -/

/-- Python regex class `\d` (ASCII). -/
def pyDigit (c : Char) : Bool := c.isDigit

/-- Python regex class `\s` (ASCII): space, tab, newline, carriage return,
vertical tab, form feed. -/
def pySpace (c : Char) : Bool :=
  c = ' ' || c = '\t' || c = '\n' || c = '\r' || c = '\x0b' || c = '\x0c'

/-- Python regex class `\w` (ASCII): alphanumeric or underscore. -/
def pyWord (c : Char) : Bool := c.isAlphanum || c = '_'

/-- A mandatory greedy class run (`p+` followed by a class-disjoint token):
the maximal run of `p`-characters, failing when it is empty. -/
def spanReq (p : Char → Bool) (s : List Char) : Option (List Char × List Char) :=
  if (s.takeWhile p).isEmpty then none else some (s.takeWhile p, s.dropWhile p)

/-- The trailing literal alternation `(On|Off)`, tried in order. -/
def matchStatus : List Char → Option (String × List Char)
  | 'O' :: 'n' :: rest => some ("On", rest)
  | 'O' :: 'f' :: 'f' :: rest => some ("Off", rest)
  | _ => none

/-- The condition under which the maximal word run can be split as
`\w+\d+`: length at least 2 and a digit as last character. -/
def nameOk (nm : List Char) : Bool :=
  decide (2 ≤ nm.length) && nm.getLast?.elim false pyDigit

/-- One anchored match attempt of `(\d+)\s+\w+\d+\s+(On|Off)` at the head of
`s`; on success returns (group 1, group 2, text after the match). -/
def matchAt (s : List Char) : Option (List Char × String × List Char) :=
  (spanReq pyDigit s).bind fun p1 =>
  (spanReq pySpace p1.2).bind fun p2 =>
  (spanReq pyWord p2.2).bind fun p3 =>
  if nameOk p3.1 then
    (spanReq pySpace p3.2).bind fun p4 =>
    (matchStatus p4.2).map fun st => (p1.1, st.1, st.2)
  else none

/-- The scan of `re.findall`: try a match at each position left to right,
resuming after the end of each successful match.  Each step consumes at
least one character, so fuel equal to the text length is enough; `findall`
supplies it. -/
def findallAux : Nat → List Char → List (List Char × String)
  | 0, _ => []
  | _ + 1, [] => []
  | fuel + 1, c :: cs =>
    match matchAt (c :: cs) with
    | some (ds, st, rest) => (ds, st) :: findallAux fuel rest
    | none => findallAux fuel cs

/-- `re.findall(pattern, string)` for the outlet-state pattern: the list of
(group 1, group 2) pairs of the non-overlapping matches, left to right. -/
def findall (s : List Char) : List (List Char × String) :=
  findallAux s.length s

/-- Python `int` applied to a non-empty string of decimal digits. -/
def digitsToInt (ds : List Char) : Int :=
  (ds.foldl (fun acc c => acc * 10 + (c.toNat - '0'.toNat)) 0 : Nat)

/-- Python `str.lower` on one character (ASCII). -/
def pyLowerChar (c : Char) : Char :=
  if 'A' ≤ c ∧ c ≤ 'Z' then Char.ofNat (c.toNat + 32) else c

/-- Python `str.strip()`: remove leading and trailing whitespace. -/
def pyStrip (s : List Char) : List Char :=
  ((s.dropWhile pySpace).reverse.dropWhile pySpace).reverse

/-- Local function `convert_telnet_string_to_bool` of `get_outlet_states`:
strips and lower-cases its argument, mapping "on" to `True` and "off" to
`False`, raising `ValueError` otherwise. -/
def convert_telnet_string_to_bool (telnet_string : String) : Except PyError Bool :=
  let u := (pyStrip telnet_string.data).map pyLowerChar
  if u = "on".data then .ok true
  else if u = "off".data then .ok false
  else .error (.valueError s!"Invalid telnet on/off string: {telnet_string}")

/-- Python `dict` assignment `d[k] = v`: overwrite in place when the key is
present, else append. -/
def dictInsert (m : List (Int × Bool)) (k : Int) (v : Bool) : List (Int × Bool) :=
  if m.any fun p => p.1 = k then
    m.map fun p => if p.1 = k then (k, v) else p
  else m ++ [(k, v)]

/-- Lookup in the insertion-ordered dict model. -/
def dictLookup (m : List (Int × Bool)) (k : Int) : Option Bool :=
  (m.find? fun p => p.1 = k).map fun p => p.2

/-- Conversion pass of the dict comprehension of `get_outlet_states`: for
each match pair in order, `int` of group 1 and
`convert_telnet_string_to_bool` of group 2; the first conversion failure
raises and discards everything. -/
def convertMatches : List (List Char × String) → Except PyError (List (Int × Bool))
  | [] => .ok []
  | (ds, st) :: rest =>
    match convert_telnet_string_to_bool st with
    | .error e => .error e
    | .ok b =>
      match convertMatches rest with
      | .error e => .error e
      | .ok ps => .ok ((digitsToInt ds, b) :: ps)

/-- Insertion pass of the dict comprehension: fold the converted pairs into
a dict, left to right, later pairs overwriting earlier ones. -/
def buildDict (ps : List (Int × Bool)) : List (Int × Bool) :=
  ps.foldl (fun d p => dictInsert d p.1 p.2) []

/-- The Telnet outlet-state parser applied to one response page: the regex
scan followed by the dict comprehension
`{int(outlet): convert_telnet_string_to_bool(state) for outlet, state in matches}`. -/
def parseOutletStates (response : String) : Except PyError (List (Int × Bool)) :=
  (convertMatches (findall response.data)).map buildDict

/-! ### The polling loop and the client operations -/

/-- The `while outlet_states == {}` loop of `get_outlet_states`, run against
a list of device response pages: each iteration writes `"oltsta show\r\n"`,
reads one page up to the `"CyberPower > "` marker and parses it, repeating
while the parsed dict is empty.  The result carries the number of queries
sent; `none` models the loop never returning because every supplied page
parsed empty. -/
def telnetGetOutletStatesLoop : List String → Except PyError (Option (Nat × List (Int × Bool)))
  | [] => .ok none
  | r :: rest =>
    match parseOutletStates r with
    | .error e => .error e
    | .ok m =>
      if m.isEmpty then
        match telnetGetOutletStatesLoop rest with
        | .error e => .error e
        | .ok none => .ok none
        | .ok (some (queries, states)) => .ok (some (queries + 1, states))
      else .ok (some (1, m))

/-- State of `AsyncTelnetCyberPowerPDUHardware`: the cached
`__number_of_outlets` (0 until `initialize` runs). -/
structure TelnetPDU where
  number_of_outlets : Int
  deriving DecidableEq, Repr

/-- The state of a freshly constructed, never-initialized Telnet client. -/
def telnetUninit : TelnetPDU := ⟨0⟩

/-- Property `AsyncTelnetCyberPowerPDUHardware.number_of_outlets`. -/
def telnetNumberOfOutlets (s : TelnetPDU) : Except PyError Int :=
  numberOfOutletsProp s.number_of_outlets

/-- One Telnet stream operation, for the effect traces of the Telnet client. -/
inductive TelnetOp where
  | write (text : String)
  | drain
  | readuntil (marker : String)
  deriving DecidableEq, Repr

/-- Method `AsyncTelnetCyberPowerPDUHardware.get_bank_load`: unconditionally
`raise NotImplementedError(...)` — no validation, no stream traffic. -/
def telnetGetBankLoad (_s : TelnetPDU) (_bank : Int) : Except PyError Rat × List TelnetOp :=
  (.error (.notImplementedError "This method is not implemented in the telnet API"), [])

/-- The f-string `f"oltctrl index {outlet} act {command.to_telnet_action()}\r\n"`
written by `send_outlet_command`. -/
def telnetCommandLine (outlet : Int) (command : OutletCommand) : String :=
  let act := command.to_telnet_action
  s!"oltctrl index {outlet} act {act}\r\n"

/-- Method `AsyncTelnetCyberPowerPDUHardware.send_outlet_command`: after
index validation, writes the single command line and drains; it performs no
read (the device's acknowledgement is neither awaited nor checked). -/
def telnetSendOutletCommand (s : TelnetPDU) (outlet : Int) (command : OutletCommand) :
    Except PyError Unit × List TelnetOp :=
  match validOutletIndex s.number_of_outlets outlet with
  | .error e => (.error e, [])
  | .ok true =>
      ((.ok ()), [.write (telnetCommandLine outlet command), .drain])
  | .ok false =>
      match outletValueError s.number_of_outlets outlet with
      | .error e => (.error e, [])
      | .ok e => (.error e, [])

/-- Method `AsyncTelnetCyberPowerPDUHardware.get_outlet_state`: after index
validation, re-queries the full state dict and indexes it with the outlet
number (Python raises `KeyError` when the key is absent).  The result is
paired with the number of `"oltsta show"` queries sent, and is `none` when
the polling loop never returns. -/
def telnetGetOutletState (s : TelnetPDU) (responses : List String) (outlet : Int) :
    Option (Except PyError Bool × Nat) :=
  match validOutletIndex s.number_of_outlets outlet with
  | .error e => some (.error e, 0)
  | .ok true =>
      match telnetGetOutletStatesLoop responses with
      | .error e => some (.error e, 0)
      | .ok none => none
      | .ok (some (queries, states)) =>
          match dictLookup states outlet with
          | some b => some (.ok b, queries)
          | none => some (.error (.keyError outlet), queries)
  | .ok false =>
      match outletValueError s.number_of_outlets outlet with
      | .error e => some (.error e, 0)
      | .ok e => some (.error e, 0)

/-! ### Canonical response shapes

`TelnetLine` describes the two kinds of line a well-formed device response
page is made of: an outlet line — optional indentation, the outlet index,
whitespace, an outlet name token (word characters, at least two, ending in a
digit, as the device's `Outlet1`, `Outlet2`, … names do), whitespace, the
exact-case status token `On`/`Off`, optional trailing whitespace — and a
noise line containing no digit at all (the header, separator dashes, blank
lines and the prompt of the sample response are all digit-free). -/
inductive TelnetLine where
  | outletLine (lead ds sp1 nm sp2 : List Char) (b : Bool) (trail : List Char)
  | noiseLine (g : List Char)
  deriving DecidableEq, Repr

/-- The wire text of the status token. -/
def statusToken (b : Bool) : String := if b then "On" else "Off"

/-- The characters of one line. -/
def lineChars : TelnetLine → List Char
  | .outletLine lead ds sp1 nm sp2 b trail =>
      lead ++ ds ++ sp1 ++ nm ++ sp2 ++ (statusToken b).data ++ trail
  | .noiseLine g => g

/-- Wellformedness of one line (decidable, used as a hypothesis). -/
def lineOk : TelnetLine → Bool
  | .outletLine lead ds sp1 nm sp2 _ trail =>
      lead.all pySpace && !ds.isEmpty && ds.all pyDigit &&
      !sp1.isEmpty && sp1.all pySpace &&
      nm.all pyWord && nameOk nm &&
      !sp2.isEmpty && sp2.all pySpace && trail.all pySpace
  | .noiseLine g => g.all fun c => !pyDigit c

/-- The (index, state) pair contributed by a line, if any. -/
def linePair : TelnetLine → Option (Int × Bool)
  | .outletLine _ ds _ _ _ b _ => some (digitsToInt ds, b)
  | .noiseLine _ => none

/-- The raw `findall` pair contributed by a line, if any. -/
def lineRaw : TelnetLine → Option (List Char × String)
  | .outletLine _ ds _ _ _ b _ => some (ds, statusToken b)
  | .noiseLine _ => none

/-- A response page assembled from lines joined by newline characters. -/
def renderLines : List TelnetLine → List Char
  | [] => []
  | [l] => lineChars l
  | l :: l2 :: rest => lineChars l ++ '\n' :: renderLines (l2 :: rest)

/-! ## Lemmas about the parser -/

lemma pySpace_digit {c : Char} (h : pySpace c = true) : pyDigit c = false := by
  simp only [pySpace, Bool.or_eq_true, decide_eq_true_eq] at h
  rcases h with ((((h | h) | h) | h) | h) | h <;> subst h <;> decide

lemma pySpace_word {c : Char} (h : pySpace c = true) : pyWord c = false := by
  simp only [pySpace, Bool.or_eq_true, decide_eq_true_eq] at h
  rcases h with ((((h | h) | h) | h) | h) | h <;> subst h <;> decide

lemma pyWord_space {c : Char} (h : pyWord c = true) : pySpace c = false := by
  cases hs : pySpace c
  · rfl
  · rw [pySpace_word hs] at h; exact absurd h (by simp)

lemma takeWhile_append_cons {p : Char → Bool} {a : List Char} {c : Char} {t : List Char}
    (hall : ∀ x ∈ a, p x = true) (hc : p c = false) :
    ((a ++ c :: t).takeWhile p) = a := by
  induction a with
  | nil => simp [List.takeWhile_cons, hc]
  | cons a0 a' ih =>
      simp only [List.cons_append, List.takeWhile_cons, hall a0 (by simp)]
      rw [ih fun x hx => hall x (by simp [hx])]
      simp

lemma dropWhile_append_cons {p : Char → Bool} {a : List Char} {c : Char} {t : List Char}
    (hall : ∀ x ∈ a, p x = true) (hc : p c = false) :
    ((a ++ c :: t).dropWhile p) = c :: t := by
  induction a with
  | nil => simp [List.dropWhile_cons, hc]
  | cons a0 a' ih =>
      simp only [List.cons_append, List.dropWhile_cons, hall a0 (by simp)]
      exact ih fun x hx => hall x (by simp [hx])

lemma spanReq_append {p : Char → Bool} {a : List Char} {c : Char} {t : List Char}
    (ha : a ≠ []) (hall : ∀ x ∈ a, p x = true) (hc : p c = false) :
    spanReq p (a ++ c :: t) = some (a, c :: t) := by
  unfold spanReq
  rw [takeWhile_append_cons hall hc, dropWhile_append_cons hall hc]
  simp [ha]

lemma spanReq_some {p : Char → Bool} {s a r : List Char}
    (h : spanReq p s = some (a, r)) : s = a ++ r ∧ a ≠ [] ∧ r.length < s.length := by
  unfold spanReq at h
  split at h
  · exact absurd h (by simp)
  · next hne =>
      injection h with h'
      injection h' with h1 h2
      subst h1; subst h2
      refine ⟨(List.takeWhile_append_dropWhile ..).symm, ?_, ?_⟩
      · intro hnil; rw [hnil] at hne; exact hne rfl
      · conv_rhs => rw [← @List.takeWhile_append_dropWhile _ p s]
        rw [List.length_append]
        have : s.takeWhile p ≠ [] := by intro hnil; rw [hnil] at hne; exact hne rfl
        have : 0 < (s.takeWhile p).length := List.length_pos.mpr this
        omega

lemma matchStatus_some {u : List Char} {st : String} {rest : List Char}
    (h : matchStatus u = some (st, rest)) : rest.length < u.length := by
  unfold matchStatus at h
  split at h
  · injection h with h'; injection h' with h1 h2; subst h2; simp; omega
  · injection h with h'; injection h' with h1 h2; subst h2; simp; omega
  · exact absurd h (by simp)

lemma matchAt_some {s ds rest : List Char} {st : String}
    (h : matchAt s = some (ds, st, rest)) : rest.length < s.length := by
  unfold matchAt at h
  rw [Option.bind_eq_some] at h
  obtain ⟨p1, hp1, h⟩ := h
  rw [Option.bind_eq_some] at h
  obtain ⟨p2, hp2, h⟩ := h
  rw [Option.bind_eq_some] at h
  obtain ⟨p3, hp3, h⟩ := h
  split at h
  · rw [Option.bind_eq_some] at h
    obtain ⟨p4, hp4, h⟩ := h
    rw [Option.map_eq_some'] at h
    obtain ⟨stp, hst, hv⟩ := h
    have l1 := (spanReq_some hp1).2.2
    have l2 := (spanReq_some hp2).2.2
    have l3 := (spanReq_some hp3).2.2
    have l4 := (spanReq_some hp4).2.2
    have l5 := matchStatus_some hst
    have : rest = stp.2 := by
      have := congrArg (fun q => q.2.2) hv
      simpa using this.symm
    subst this
    omega
  · exact absurd h (by simp)

lemma matchAt_none_head {c : Char} {cs : List Char} (h : pyDigit c = false) :
    matchAt (c :: cs) = none := by
  unfold matchAt
  have : spanReq pyDigit (c :: cs) = none := by
    unfold spanReq
    simp [List.takeWhile_cons, h]
  rw [this]
  rfl

lemma matchAt_nil : matchAt [] = none := rfl

lemma findallAux_nil : ∀ fuel, findallAux fuel [] = [] := by
  intro fuel; cases fuel <;> rfl

lemma findallAux_congr :
    ∀ f1 : Nat, ∀ (s : List Char) (f2 : Nat), s.length ≤ f1 → s.length ≤ f2 →
      findallAux f1 s = findallAux f2 s := by
  intro f1
  induction f1 with
  | zero =>
      intro s f2 h1 _
      have : s = [] := List.length_eq_zero.mp (Nat.le_zero.mp h1)
      subst this
      rw [findallAux_nil, findallAux_nil]
  | succ f ih =>
      intro s f2 h1 h2
      cases s with
      | nil => rw [findallAux_nil, findallAux_nil]
      | cons c cs =>
          cases f2 with
          | zero => simp at h2
          | succ f2' =>
              simp only [findallAux]
              cases hm : matchAt (c :: cs) with
              | none =>
                  simp only [List.length_cons] at h1 h2
                  exact ih cs f2' (by omega) (by omega)
              | some trip =>
                  obtain ⟨ds, st, rest⟩ := trip
                  have hlen := matchAt_some hm
                  simp only [List.length_cons] at h1 h2 hlen
                  show (ds, st) :: findallAux f rest = (ds, st) :: findallAux f2' rest
                  rw [ih rest f2' (by omega) (by omega)]

lemma findall_cons_none {c : Char} {cs : List Char} (h : matchAt (c :: cs) = none) :
    findall (c :: cs) = findall cs := by
  unfold findall
  simp only [List.length_cons, findallAux, h]

lemma findall_cons_some {c : Char} {cs ds rest : List Char} {st : String}
    (h : matchAt (c :: cs) = some (ds, st, rest)) :
    findall (c :: cs) = (ds, st) :: findall rest := by
  unfold findall
  simp only [List.length_cons, findallAux, h]
  have hlen := matchAt_some h
  simp only [List.length_cons] at hlen
  rw [findallAux_congr cs.length rest rest.length (by omega) (by omega)]

lemma findall_some {s ds rest : List Char} {st : String}
    (h : matchAt s = some (ds, st, rest)) :
    findall s = (ds, st) :: findall rest := by
  cases s with
  | nil => rw [matchAt_nil] at h; exact absurd h (by simp)
  | cons c cs => exact findall_cons_some h

lemma findall_skip {g : List Char} (t : List Char) (h : ∀ c ∈ g, pyDigit c = false) :
    findall (g ++ t) = findall t := by
  induction g with
  | nil => rfl
  | cons c g' ih =>
      rw [List.cons_append,
        findall_cons_none (matchAt_none_head (h c (by simp))),
        ih fun x hx => h x (by simp [hx])]

lemma spanReq_cons_append {p : Char → Bool} {a : List Char} {c0 c : Char} {t : List Char}
    (hall : ∀ x ∈ c0 :: a, p x = true) (hc : p c = false) :
    spanReq p (c0 :: (a ++ c :: t)) = some (c0 :: a, c :: t) := by
  rw [← List.cons_append]
  exact spanReq_append (by simp) hall hc

lemma matchAt_canonical {ds sp1t nmt sp2t tail : List Char} {c1 cn c2 : Char} (b : Bool)
    (hds : ds ≠ []) (hdsall : ∀ c ∈ ds, pyDigit c = true)
    (hsp1all : ∀ c ∈ c1 :: sp1t, pySpace c = true)
    (hnmall : ∀ c ∈ cn :: nmt, pyWord c = true) (hnm : nameOk (cn :: nmt) = true)
    (hsp2all : ∀ c ∈ c2 :: sp2t, pySpace c = true) :
    matchAt (ds ++ (c1 :: sp1t) ++ (cn :: nmt) ++ (c2 :: sp2t) ++ (statusToken b).data ++ tail) =
      some (ds, statusToken b, tail) := by
  have hd1 : pyDigit c1 = false := pySpace_digit (hsp1all c1 (by simp))
  have hwn : pySpace cn = false := pyWord_space (hnmall cn (by simp))
  have hwc2 : pyWord c2 = false := pySpace_word (hsp2all c2 (by simp))
  cases b with
  | true =>
      simp only [List.append_assoc, List.cons_append, List.nil_append]
      show matchAt (ds ++ c1 :: (sp1t ++ cn :: (nmt ++ c2 :: (sp2t ++
        'O' :: 'n' :: tail)))) = some (ds, "On", tail)
      have e1 : spanReq pyDigit (ds ++ c1 :: (sp1t ++ cn :: (nmt ++ c2 :: (sp2t ++
          'O' :: 'n' :: tail)))) = some (ds, c1 :: (sp1t ++ cn :: (nmt ++ c2 :: (sp2t ++
          'O' :: 'n' :: tail)))) := spanReq_append hds hdsall hd1
      have e2 : spanReq pySpace (c1 :: (sp1t ++ cn :: (nmt ++ c2 :: (sp2t ++
          'O' :: 'n' :: tail)))) = some (c1 :: sp1t, cn :: (nmt ++ c2 :: (sp2t ++
          'O' :: 'n' :: tail))) := spanReq_cons_append hsp1all hwn
      have e3 : spanReq pyWord (cn :: (nmt ++ c2 :: (sp2t ++ 'O' :: 'n' :: tail))) =
          some (cn :: nmt, c2 :: (sp2t ++ 'O' :: 'n' :: tail)) :=
        spanReq_cons_append hnmall hwc2
      have e4 : spanReq pySpace (c2 :: (sp2t ++ 'O' :: 'n' :: tail)) =
          some (c2 :: sp2t, 'O' :: 'n' :: tail) :=
        spanReq_cons_append hsp2all (by decide)
      simp only [matchAt, e1, Option.some_bind, e2, e3, if_pos hnm, e4]
      rfl
  | false =>
      simp only [List.append_assoc, List.cons_append, List.nil_append]
      show matchAt (ds ++ c1 :: (sp1t ++ cn :: (nmt ++ c2 :: (sp2t ++
        'O' :: 'f' :: 'f' :: tail)))) = some (ds, "Off", tail)
      have e1 : spanReq pyDigit (ds ++ c1 :: (sp1t ++ cn :: (nmt ++ c2 :: (sp2t ++
          'O' :: 'f' :: 'f' :: tail)))) = some (ds, c1 :: (sp1t ++ cn :: (nmt ++ c2 :: (sp2t ++
          'O' :: 'f' :: 'f' :: tail)))) := spanReq_append hds hdsall hd1
      have e2 : spanReq pySpace (c1 :: (sp1t ++ cn :: (nmt ++ c2 :: (sp2t ++
          'O' :: 'f' :: 'f' :: tail)))) = some (c1 :: sp1t, cn :: (nmt ++ c2 :: (sp2t ++
          'O' :: 'f' :: 'f' :: tail))) := spanReq_cons_append hsp1all hwn
      have e3 : spanReq pyWord (cn :: (nmt ++ c2 :: (sp2t ++ 'O' :: 'f' :: 'f' :: tail))) =
          some (cn :: nmt, c2 :: (sp2t ++ 'O' :: 'f' :: 'f' :: tail)) :=
        spanReq_cons_append hnmall hwc2
      have e4 : spanReq pySpace (c2 :: (sp2t ++ 'O' :: 'f' :: 'f' :: tail)) =
          some (c2 :: sp2t, 'O' :: 'f' :: 'f' :: tail) :=
        spanReq_cons_append hsp2all (by decide)
      simp only [matchAt, e1, Option.some_bind, e2, e3, if_pos hnm, e4]
      rfl

lemma all_pySpace_not_digit {a : List Char} (h : ∀ c ∈ a, pySpace c = true) :
    ∀ c ∈ a, pyDigit c = false :=
  fun c hc => pySpace_digit (h c hc)

lemma findall_outlet_line {lead ds sp1 nm sp2 trail : List Char} {b : Bool} (t : List Char)
    (hok : lineOk (.outletLine lead ds sp1 nm sp2 b trail) = true) :
    findall (lineChars (.outletLine lead ds sp1 nm sp2 b trail) ++ t) =
      (ds, statusToken b) :: findall t := by
  simp only [lineOk, Bool.and_eq_true] at hok
  obtain ⟨⟨⟨⟨⟨⟨⟨⟨⟨h1, h2⟩, h3⟩, h4⟩, h5⟩, h6⟩, h7⟩, h8⟩, h9⟩, h10⟩ := hok
  rw [List.all_eq_true] at h1 h3 h5 h6 h9 h10
  have hds : ds ≠ [] := by cases ds <;> simp_all
  cases sp1 with
  | nil => simp at h4
  | cons c1 sp1t =>
  cases nm with
  | nil => simp [nameOk] at h7
  | cons cn nmt =>
  cases sp2 with
  | nil => simp at h8
  | cons c2 sp2t =>
  have hm := @matchAt_canonical ds sp1t nmt sp2t (trail ++ t) c1 cn c2 b hds h3 h5 h6 h7 h9
  simp only [lineChars, List.append_assoc, List.cons_append] at hm ⊢
  rw [findall_skip _ (all_pySpace_not_digit h1), findall_some hm,
    findall_skip _ (all_pySpace_not_digit h10)]

lemma findall_noise_line {g : List Char} (t : List Char)
    (hok : lineOk (.noiseLine g) = true) :
    findall (lineChars (.noiseLine g) ++ t) = findall t := by
  simp only [lineOk, List.all_eq_true] at hok
  refine findall_skip t fun c hc => ?_
  have := hok c hc
  simpa using this

lemma findall_line {l : TelnetLine} (t : List Char) (hok : lineOk l = true) :
    findall (lineChars l ++ t) = ((lineRaw l).toList.map fun p => p) ++ findall t := by
  cases l with
  | outletLine lead ds sp1 nm sp2 b trail =>
      rw [findall_outlet_line t hok]
      rfl
  | noiseLine g =>
      rw [findall_noise_line t hok]
      rfl

lemma findall_nil_empty : findall [] = [] := rfl

lemma findall_render :
    ∀ ls : List TelnetLine, (∀ l ∈ ls, lineOk l = true) →
      findall (renderLines ls) = ls.filterMap lineRaw := by
  intro ls
  induction ls with
  | nil => intro _; rfl
  | cons l rest ih =>
      intro hok
      cases rest with
      | nil =>
          have h0 := findall_line [] (hok l (by simp))
          rw [List.append_nil] at h0
          show findall (lineChars l) = List.filterMap lineRaw [l]
          rw [h0, findall_nil_empty, List.append_nil]
          cases l <;> rfl
      | cons l2 rest' =>
          show findall (lineChars l ++ '\n' :: renderLines (l2 :: rest')) =
            List.filterMap lineRaw (l :: l2 :: rest')
          rw [findall_line _ (hok l (by simp)),
            findall_cons_none (matchAt_none_head (by decide)),
            ih fun x hx => hok x (by simp [hx])]
          cases l <;> simp [List.filterMap_cons, lineRaw]

lemma convert_statusToken (b : Bool) :
    convert_telnet_string_to_bool (statusToken b) = .ok b := by
  cases b <;> decide

lemma convertMatches_render (ls : List TelnetLine) :
    convertMatches (ls.filterMap lineRaw) = .ok (ls.filterMap linePair) := by
  induction ls with
  | nil => rfl
  | cons l rest ih =>
      cases l with
      | outletLine lead ds sp1 nm sp2 b trail =>
          simp only [List.filterMap_cons, lineRaw, linePair]
          show convertMatches ((ds, statusToken b) :: List.filterMap lineRaw rest) =
            .ok ((digitsToInt ds, b) :: List.filterMap linePair rest)
          simp only [convertMatches, convert_statusToken, ih]
      | noiseLine g =>
          simpa only [List.filterMap_cons, lineRaw, linePair] using ih

lemma foldl_dictInsert_nodup :
    ∀ (ps acc : List (Int × Bool)), (((acc ++ ps).map Prod.fst).Nodup) →
      ps.foldl (fun d p => dictInsert d p.1 p.2) acc = acc ++ ps := by
  intro ps
  induction ps with
  | nil => intro acc _; simp
  | cons p ps' ih =>
      intro acc h
      obtain ⟨k, v⟩ := p
      have hnot : k ∉ acc.map Prod.fst := by
        rw [List.map_append, List.nodup_append] at h
        exact fun hk => h.2.2 hk (by simp)
      have hins : dictInsert acc k v = acc ++ [(k, v)] := by
        unfold dictInsert
        rw [if_neg]
        simp only [List.any_eq_true, decide_eq_true_eq, not_exists]
        intro x hx
        exact hnot (by simpa [← hx.2] using List.mem_map_of_mem Prod.fst hx.1)
      simp only [List.foldl_cons, hins]
      rw [ih (acc ++ [(k, v)]) (by simpa using h)]
      simp

lemma buildDict_nodup {ps : List (Int × Bool)} (h : (ps.map Prod.fst).Nodup) :
    buildDict ps = ps :=
  foldl_dictInsert_nodup ps [] (by simpa using h)

lemma dictLookup_cons_eq {k : Int} {v0 : Bool} {ps : List (Int × Bool)} :
    dictLookup ((k, v0) :: ps) k = some v0 := by
  unfold dictLookup
  rw [List.find?_cons_of_pos _ (by simp)]
  rfl

lemma dictLookup_cons_ne {k0 k : Int} {v0 : Bool} {ps : List (Int × Bool)} (hk : k0 ≠ k) :
    dictLookup ((k0, v0) :: ps) k = dictLookup ps k := by
  unfold dictLookup
  rw [List.find?_cons_of_neg _ (by simpa using hk)]

lemma dictLookup_eq_some_iff :
    ∀ {ps : List (Int × Bool)} {k : Int} {b : Bool}, ((ps.map Prod.fst).Nodup) →
      (dictLookup ps k = some b ↔ (k, b) ∈ ps) := by
  intro ps
  induction ps with
  | nil => intro k b _; simp [dictLookup]
  | cons p ps' ih =>
      intro k b h
      obtain ⟨k0, v0⟩ := p
      simp only [List.map_cons, List.nodup_cons] at h
      by_cases hk : k0 = k
      · subst hk
        rw [dictLookup_cons_eq]
        simp only [Option.some_inj, List.mem_cons]
        constructor
        · intro hv; exact Or.inl (by rw [hv])
        · intro hmem
          rcases hmem with hmem | hmem
          · injection hmem with h1 h2; exact h2.symm
          · exact absurd (List.mem_map_of_mem Prod.fst hmem) h.1
      · rw [dictLookup_cons_ne hk]
        constructor
        · intro hl
          exact List.mem_cons_of_mem _ ((ih h.2).mp hl)
        · intro hmem
          rcases List.mem_cons.mp hmem with hmem | hmem
          · injection hmem with h1 h2; exact absurd h1.symm hk
          · exact (ih h.2).mpr hmem

lemma parse_render (ls : List TelnetLine) (hok : ∀ l ∈ ls, lineOk l = true)
    (hnd : ((ls.filterMap linePair).map Prod.fst).Nodup) :
    parseOutletStates (String.mk (renderLines ls)) = .ok (ls.filterMap linePair) := by
  unfold parseOutletStates
  rw [show (String.mk (renderLines ls)).data = renderLines ls from rfl,
    findall_render ls hok, convertMatches_render]
  show Except.ok (buildDict (ls.filterMap linePair)) = _
  rw [buildDict_nodup hnd]

lemma loop_some_ne_nil :
    ∀ (rs : List String) (n : Nat) (m : List (Int × Bool)),
      telnetGetOutletStatesLoop rs = .ok (some (n, m)) → m ≠ [] := by
  intro rs
  induction rs with
  | nil => intro n m h; exact absurd h (by simp [telnetGetOutletStatesLoop])
  | cons r rest ih =>
      intro n m h
      unfold telnetGetOutletStatesLoop at h
      split at h
      · exact absurd h (by simp)
      · split at h
        · split at h
          · exact absurd h (by simp)
          · exact absurd h (by simp)
          · next q st heq =>
              simp only [Except.ok.injEq, Option.some.injEq, Prod.mk.injEq] at h
              obtain ⟨-, h2⟩ := h
              subst h2
              exact ih q st heq
        · next m0 hp hne =>
            simp only [Except.ok.injEq, Option.some.injEq, Prod.mk.injEq] at h
            obtain ⟨-, h2⟩ := h
            subst h2
            intro hnil
            rw [hnil] at hne
            exact hne rfl

lemma loop_two {r1 r2 : String} {rest : List String} {m : List (Int × Bool)}
    (h1 : parseOutletStates r1 = .ok []) (h2 : parseOutletStates r2 = .ok m)
    (hm : m ≠ []) :
    telnetGetOutletStatesLoop (r1 :: r2 :: rest) = .ok (some (2, m)) := by
  have hm' : m.isEmpty = false := by
    cases m
    · exact absurd rfl hm
    · rfl
  simp only [telnetGetOutletStatesLoop, h1, h2, List.isEmpty_nil, if_true, hm',
    Bool.false_eq_true, if_false]

lemma snmpGetStatesList_ok :
    ∀ (L : List Int) (s : SnmpPDU) (device : String → Int) (l : List Bool) (t : List NetOp),
      snmpGetStatesList s device L = (.ok l, t) →
        l.length = L.length ∧
          ∀ k, k < L.length →
            (snmpGetOutletState s device (L.getD k 0)).fst = .ok (l.getD k false) := by
  intro L
  induction L with
  | nil =>
      intro s device l t h
      simp only [snmpGetStatesList, Prod.mk.injEq, Except.ok.injEq] at h
      obtain ⟨h1, -⟩ := h
      subst h1
      exact ⟨rfl, fun k hk => absurd hk (by simp)⟩
  | cons o L' ih =>
      intro s device l t h
      unfold snmpGetStatesList at h
      split at h
      · exact absurd h (by simp)
      · next b t1 heq =>
          split at h
          · exact absurd h (by simp)
          · next bs t2 heq2 =>
              simp only [Prod.mk.injEq, Except.ok.injEq] at h
              obtain ⟨h1, -⟩ := h
              subst h1
              obtain ⟨hlen, hpt⟩ := ih s device bs t2 heq2
              refine ⟨by simp [hlen], ?_⟩
              intro k hk
              cases k with
              | zero =>
                  simpa [List.getD] using congrArg Prod.fst heq
              | succ k' =>
                  simp only [List.getD_cons_succ]
                  exact hpt k' (by simpa using hk)

/-! ## Lemmas about the clients -/

lemma validOutletIndex_valid {n outlet : Int} (h1 : 0 < outlet) (h2 : outlet ≤ n) :
    validOutletIndex n outlet = .ok true := by
  unfold validOutletIndex numberOfOutletsProp
  rw [if_pos h1, if_neg (by omega)]
  simp [Except.map, h2]

lemma validOutletIndex_uninit (outlet : Int) :
    validOutletIndex 0 outlet = if 0 < outlet then .error notInitError else .ok false := by
  unfold validOutletIndex numberOfOutletsProp
  split <;> simp [Except.map]

lemma outletValueError_uninit (outlet : Int) :
    outletValueError 0 outlet = .error notInitError := rfl

lemma snmpGetOutletState_uninit (device : String → Int) (outlet : Int) :
    snmpGetOutletState snmpUninit device outlet = (.error notInitError, []) := by
  unfold snmpGetOutletState snmpUninit
  rw [show (⟨0⟩ : SnmpPDU).number_of_outlets = 0 from rfl, validOutletIndex_uninit]
  by_cases h : 0 < outlet
  · rw [if_pos h]
  · rw [if_neg h]; rfl

lemma snmpSendOutletCommand_uninit (device : String → Int) (outlet : Int)
    (command : OutletCommand) :
    snmpSendOutletCommand snmpUninit device outlet command = (.error notInitError, []) := by
  unfold snmpSendOutletCommand snmpUninit
  rw [show (⟨0⟩ : SnmpPDU).number_of_outlets = 0 from rfl, validOutletIndex_uninit]
  by_cases h : 0 < outlet
  · rw [if_pos h]
  · rw [if_neg h]; rfl

lemma snmpGetAllOutletStates_uninit (device : String → Int) :
    snmpGetAllOutletStates snmpUninit device = (.error notInitError, []) := rfl

lemma asyncGetOutletState_uninit (device : String → Int) (outlet : Int) :
    asyncGetOutletState asyncUninit device outlet = (.error notInitError, []) := by
  unfold asyncGetOutletState asyncUninit
  rw [show (⟨0, 0⟩ : AsyncSnmpPDU).number_of_outlets = 0 from rfl, validOutletIndex_uninit]
  by_cases h : 0 < outlet
  · rw [if_pos h]
  · rw [if_neg h]; rfl

lemma asyncGetBankLoad_uninit (device : String → Int) (bank : Int) :
    asyncGetBankLoad asyncUninit device bank =
      (.error (.valueError (asyncBankLoadMessage bank)), []) := by
  unfold asyncGetBankLoad asyncUninit
  rw [if_neg]
  rintro ⟨h1, h2⟩
  rw [show (⟨0, 0⟩ : AsyncSnmpPDU).number_of_banks = 0 from rfl] at h2
  omega

lemma telnetGetOutletState_uninit (responses : List String) (outlet : Int) :
    telnetGetOutletState telnetUninit responses outlet = some (.error notInitError, 0) := by
  unfold telnetGetOutletState telnetUninit
  rw [show (⟨0⟩ : TelnetPDU).number_of_outlets = 0 from rfl, validOutletIndex_uninit]
  by_cases h : 0 < outlet
  · rw [if_pos h]
  · rw [if_neg h]; rfl

lemma telnetSendOutletCommand_uninit (outlet : Int) (command : OutletCommand) :
    telnetSendOutletCommand telnetUninit outlet command = (.error notInitError, []) := by
  unfold telnetSendOutletCommand telnetUninit
  rw [show (⟨0⟩ : TelnetPDU).number_of_outlets = 0 from rfl, validOutletIndex_uninit]
  by_cases h : 0 < outlet
  · rw [if_pos h]
  · rw [if_neg h]; rfl

lemma outletRange_getD {n : Int} {k : Nat} (hk : k < n.toNat) :
    (outletRange n).getD k 0 = (k : Int) + 1 := by
  simp [outletRange, List.getD_eq_getElem?_getD, List.getElem?_map, List.getElem?_range, hk,
    Int.ofNat_eq_coe]

/-! ## The claims -/

/-- C1: for indices outside `[1, count]` the index-taking operations fail
before any wire traffic (empty trace) with the out-of-range `ValueError`
(spec: `OutOfRangeError`), and the outlet-side error message carries both
the offending value and the inclusive range `1..count`.  The bank-load side
of the claim fails on the code: the second half of the message in
`AsyncCyberPowerPDUHardware.get_bank_load` is a plain string literal where
an f-string was clearly intended, so the raised error ends with the literal
text `\x7bself.__number_of_banks\x7d` instead of the bank count — the last
two conjuncts exhibit the wrong payload at bank 5 with 2 banks and show the
message is identical under a different bank count. -/
theorem c1_range_error_payload :
    (snmpGetOutletState ⟨8⟩ (fun _ => 1) 0 =
      (.error (.valueError "Invalid outlet value of: 0. Valid outlet values are 1 to 8"), [])) ∧
    (snmpGetOutletState ⟨8⟩ (fun _ => 1) 9 =
      (.error (.valueError "Invalid outlet value of: 9. Valid outlet values are 1 to 8"), [])) ∧
    (telnetSendOutletCommand ⟨8⟩ (-3) .IMMEDIATE_ON =
      (.error (.valueError "Invalid outlet value of: -3. Valid outlet values are 1 to 8"), [])) ∧
    (asyncGetBankLoad ⟨2, 8⟩ (fun _ => 37) 5 =
      (.error (.valueError ("Invalid bank value of: 5. " ++
        "Valid bank values are 1 to \x7bself.__number_of_banks\x7d")), [])) ∧
    ((asyncGetBankLoad ⟨2, 8⟩ (fun _ => 37) 5).1 = (asyncGetBankLoad ⟨4, 8⟩ (fun _ => 37) 5).1) :=
  ⟨by decide, by decide, by decide, by decide, by decide⟩

/-- C2 counterexample: the claim "every operation attempted after close
fails with NotInitializedError" is false — `close` leaves the cached count
in place on the SNMP client, so the count query after close succeeds — and
the claim "every operation attempted before initialize fails with
NotInitializedError" is false for `get_bank_load`: before initialize the
Telnet client raises `NotImplementedError` (spec:
`UnsupportedOperationError`) and the SNMP client raises the out-of-range
`ValueError`, neither of which is the `RuntimeError` the property raises. -/
theorem c2_counterexample :
    snmpNumberOfOutlets (snmpClose ⟨8⟩) = .ok 8 ∧
    telnetGetBankLoad telnetUninit 1 =
      (.error (.notImplementedError "This method is not implemented in the telnet API"), []) ∧
    asyncGetBankLoad asyncUninit (fun _ => 37) 1 =
      (.error (.valueError (asyncBankLoadMessage 1)), []) ∧
    (.notImplementedError "This method is not implemented in the telnet API") ≠ notInitError ∧
    (.valueError (asyncBankLoadMessage 1)) ≠ notInitError :=
  ⟨by decide, by decide, by decide, by decide, by decide⟩

/-- C2 amended: before initialize, the outlet-count query,
`get_outlet_state`, `get_all_outlet_states` and `send_outlet_command` fail
with the not-initialized `RuntimeError` on every client; `get_bank_load`
instead fails with the out-of-range `ValueError` on the SNMP client (its
bank count 0 makes every bank invalid) and with `NotImplementedError` on
the Telnet client; and `close` does not invalidate the session state, so
operations after close behave exactly as before close. -/
theorem c2_amended :
    (snmpNumberOfOutlets snmpUninit = .error notInitError) ∧
    (∀ (device : String → Int) (outlet : Int),
      snmpGetOutletState snmpUninit device outlet = (.error notInitError, [])) ∧
    (∀ device : String → Int,
      snmpGetAllOutletStates snmpUninit device = (.error notInitError, [])) ∧
    (∀ (device : String → Int) (outlet : Int) (command : OutletCommand),
      snmpSendOutletCommand snmpUninit device outlet command = (.error notInitError, [])) ∧
    (telnetNumberOfOutlets telnetUninit = .error notInitError) ∧
    (∀ (responses : List String) (outlet : Int),
      telnetGetOutletState telnetUninit responses outlet = some (.error notInitError, 0)) ∧
    (∀ (outlet : Int) (command : OutletCommand),
      telnetSendOutletCommand telnetUninit outlet command = (.error notInitError, [])) ∧
    (asyncNumberOfOutlets asyncUninit = .error notInitError) ∧
    (∀ (device : String → Int) (outlet : Int),
      asyncGetOutletState asyncUninit device outlet = (.error notInitError, [])) ∧
    (∀ (device : String → Int) (bank : Int),
      asyncGetBankLoad asyncUninit device bank =
        (.error (.valueError (asyncBankLoadMessage bank)), [])) ∧
    (∀ (s : TelnetPDU) (bank : Int),
      telnetGetBankLoad s bank =
        (.error (.notImplementedError "This method is not implemented in the telnet API"), [])) ∧
    (∀ s : SnmpPDU, snmpClose s = s) :=
  ⟨rfl, snmpGetOutletState_uninit, snmpGetAllOutletStates_uninit,
    snmpSendOutletCommand_uninit, rfl, telnetGetOutletState_uninit,
    telnetSendOutletCommand_uninit, rfl, asyncGetOutletState_uninit,
    asyncGetBankLoad_uninit, fun _ _ => rfl, fun _ => rfl⟩

/-- C3 counterexample: the status token is NOT matched case-insensitively.
The response `"1  Outlet1   ON"` is a line made of an index, a name token
and the token `ON` — equal to `On` up to case by the parser's own
normaliser (third conjunct) — yet the parse result is the empty mapping,
with no entry for key 1, where the claim demands `{1: true}`. -/
theorem c3_counterexample :
    parseOutletStates "1  Outlet1   ON" = .ok [] ∧
    dictLookup [] 1 = none ∧
    (pyStrip "ON".data).map pyLowerChar = "on".data :=
  ⟨by decide, by decide, by decide⟩

/-- C3 amended: for a response whose lines each either consist of optional
whitespace, an integer index, whitespace, a name token (word characters, at
least two, ending in a digit), whitespace, an exact-case `On`/`Off` token
and optional trailing whitespace, or contain no digit at all, with pairwise
distinct indices across outlet lines, the parser produces a mapping
containing key k with value true (resp. false) exactly for each outlet line
with index k and token `On` (resp. `Off`). -/
theorem c3_amended (ls : List TelnetLine)
    (hok : ∀ l ∈ ls, lineOk l = true)
    (hnd : ((ls.filterMap linePair).map Prod.fst).Nodup) :
    ∃ m, parseOutletStates (String.mk (renderLines ls)) = .ok m ∧
      ∀ (k : Int) (b : Bool), dictLookup m k = some b ↔ (k, b) ∈ ls.filterMap linePair :=
  ⟨ls.filterMap linePair, parse_render ls hok hnd,
    fun _ _ => dictLookup_eq_some_iff hnd⟩

/-- C3 witness: the two sample lines `"1  Outlet1   On"` and
`"2  Outlet2   Off"` render to exactly the sample response and parse to the
mapping `{1: true, 2: false}`. -/
theorem c3_witness :
    (∀ l ∈ [TelnetLine.outletLine [] ['1'] [' ', ' '] "Outlet1".data [' ', ' ', ' '] true [],
        TelnetLine.outletLine [] ['2'] [' ', ' '] "Outlet2".data [' ', ' ', ' '] false []],
      lineOk l = true) ∧
    String.mk (renderLines
      [TelnetLine.outletLine [] ['1'] [' ', ' '] "Outlet1".data [' ', ' ', ' '] true [],
       TelnetLine.outletLine [] ['2'] [' ', ' '] "Outlet2".data [' ', ' ', ' '] false []]) =
      "1  Outlet1   On\n2  Outlet2   Off" ∧
    ([TelnetLine.outletLine [] ['1'] [' ', ' '] "Outlet1".data [' ', ' ', ' '] true [],
      TelnetLine.outletLine [] ['2'] [' ', ' '] "Outlet2".data [' ', ' ', ' '] false []].filterMap
        linePair) = [(1, true), (2, false)] ∧
    ∃ m, parseOutletStates (String.mk (renderLines
        [TelnetLine.outletLine [] ['1'] [' ', ' '] "Outlet1".data [' ', ' ', ' '] true [],
         TelnetLine.outletLine [] ['2'] [' ', ' '] "Outlet2".data [' ', ' ', ' '] false []])) =
        .ok m ∧
      ∀ (k : Int) (b : Bool), dictLookup m k = some b ↔
        (k, b) ∈ ([TelnetLine.outletLine [] ['1'] [' ', ' '] "Outlet1".data [' ', ' ', ' '] true [],
          TelnetLine.outletLine [] ['2'] [' ', ' '] "Outlet2".data [' ', ' ', ' '] false []].filterMap
            linePair) :=
  ⟨by decide, by decide, by decide, c3_amended _ (by decide) (by decide)⟩

/-- C4: the polling loop of the Telnet outlet-state query never returns an
empty mapping (first conjunct: whenever it returns after finitely many
queries, the mapping is non-empty), and when the first response parses to
zero matching lines and the second to a non-empty mapping, exactly two
queries are sent and the second mapping is returned. -/
theorem c4_poll_retry :
    (∀ (rs : List String) (n : Nat) (m : List (Int × Bool)),
      telnetGetOutletStatesLoop rs = .ok (some (n, m)) → m ≠ []) ∧
    (∀ (r1 r2 : String) (rest : List String) (m : List (Int × Bool)),
      parseOutletStates r1 = .ok [] → parseOutletStates r2 = .ok m → m ≠ [] →
        telnetGetOutletStatesLoop (r1 :: r2 :: rest) = .ok (some (2, m))) :=
  ⟨loop_some_ne_nil, fun _ _ _ _ h1 h2 hm => loop_two h1 h2 hm⟩

/-- C4 witness: a garbage page followed by the sample page makes the query
succeed after exactly two queries with the second page's mapping. -/
theorem c4_witness :
    parseOutletStates "garbage" = .ok [] ∧
    parseOutletStates "1  Outlet1   On\n2  Outlet2   Off" = .ok [(1, true), (2, false)] ∧
    telnetGetOutletStatesLoop ["garbage", "1  Outlet1   On\n2  Outlet2   Off"] =
      .ok (some (2, [(1, true), (2, false)])) :=
  ⟨by decide, by decide,
    c4_poll_retry.2 "garbage" "1  Outlet1   On\n2  Outlet2   Off" [] [(1, true), (2, false)]
      (by decide) (by decide) (by decide)⟩

/-- C5: on a valid outlet index both SNMP clients read the outlet-status
OID and decode it with the shared decode: wire 1 yields true, wire 2 yields
false, and any other integer fails with the unexpected-value `ValueError`
(spec: `UnexpectedValueError`). -/
theorem c5_outlet_state_decode :
    (decodeOutletState 1 = .ok true) ∧
    (decodeOutletState 2 = .ok false) ∧
    (∀ wire : Int, wire ≠ 1 → wire ≠ 2 →
      decodeOutletState wire =
        .error (.valueError s!"Received unexpected value for outlet state: {wire}")) ∧
    (∀ (s : SnmpPDU) (device : String → Int) (outlet : Int),
      0 < outlet → outlet ≤ s.number_of_outlets →
        snmpGetOutletState s device outlet =
          (decodeOutletState (device (outletStatusOid outlet)), [.get (outletStatusOid outlet)])) ∧
    (∀ (a : AsyncSnmpPDU) (device : String → Int) (outlet : Int),
      0 < outlet → outlet ≤ a.number_of_outlets →
        asyncGetOutletState a device outlet =
          (decodeOutletState (device (outletStatusOid outlet)), [.get (outletStatusOid outlet)])) := by
  refine ⟨rfl, rfl, ?_, ?_, ?_⟩
  · intro wire hw1 hw2
    unfold decodeOutletState
    rw [if_neg hw1, if_neg hw2]
  · intro s device outlet h1 h2
    unfold snmpGetOutletState
    rw [validOutletIndex_valid h1 h2]
  · intro a device outlet h1 h2
    unfold asyncGetOutletState
    rw [validOutletIndex_valid h1 h2]

/-- C5 witness: with 8 outlets and outlet 3, wire value 1 reads true, 2
reads false, and 0 fails with the unexpected-value error. -/
theorem c5_witness :
    ((0 : Int) < 3 ∧ (3 : Int) ≤ (8 : Int)) ∧
    snmpGetOutletState ⟨8⟩ (fun _ => 1) 3 = (.ok true, [.get (outletStatusOid 3)]) ∧
    snmpGetOutletState ⟨8⟩ (fun _ => 2) 3 = (.ok false, [.get (outletStatusOid 3)]) ∧
    snmpGetOutletState ⟨8⟩ (fun _ => 0) 3 =
      (.error (.valueError "Received unexpected value for outlet state: 0"),
        [.get (outletStatusOid 3)]) :=
  ⟨⟨by decide, by decide⟩,
    (c5_outlet_state_decode.2.2.2.1 ⟨8⟩ (fun _ => 1) 3 (by decide) (by decide)).trans (by decide),
    (c5_outlet_state_decode.2.2.2.1 ⟨8⟩ (fun _ => 2) 3 (by decide) (by decide)).trans (by decide),
    (c5_outlet_state_decode.2.2.2.1 ⟨8⟩ (fun _ => 0) 3 (by decide) (by decide)).trans (by decide)⟩

/-- C6: whenever `get_all_outlet_states` returns a list, its length is
exactly the cached outlet count, and its 0-based element k is exactly what
`get_outlet_state(k+1)` returns against the same device. -/
theorem c6_get_all_outlet_states (s : SnmpPDU) (device : String → Int)
    (l : List Bool) (t : List NetOp)
    (h : snmpGetAllOutletStates s device = (.ok l, t)) :
    l.length = s.number_of_outlets.toNat ∧
      ∀ k : Nat, k < l.length →
        (snmpGetOutletState s device ((k : Int) + 1)).fst = .ok (l.getD k false) := by
  unfold snmpGetAllOutletStates at h
  split at h
  · exact absurd h (by simp)
  · next n heq =>
      obtain ⟨hlen, hpt⟩ := snmpGetStatesList_ok (outletRange n) s device l t h
      have hn : n = s.number_of_outlets := by
        unfold snmpNumberOfOutlets numberOfOutletsProp at heq
        split at heq
        · exact absurd heq (by simp)
        · injection heq with h'; exact h'.symm
      have hrl : (outletRange n).length = n.toNat := by simp [outletRange]
      subst hn
      refine ⟨by rw [hlen, hrl], ?_⟩
      intro k hk
      have hk' : k < (outletRange s.number_of_outlets).length := by omega
      have := hpt k hk'
      rwa [outletRange_getD (by omega)] at this

/-- C6 witness: with 2 outlets and a device answering 1 on every OID, the
full read returns `[true, true]`, of length 2, agreeing pointwise with the
single reads of outlets 1 and 2. -/
theorem c6_witness :
    snmpGetAllOutletStates ⟨2⟩ (fun _ => 1) =
      (.ok [true, true], [.get (outletStatusOid 1), .get (outletStatusOid 2)]) ∧
    ([true, true].length = (2 : Int).toNat ∧
      ∀ k : Nat, k < [true, true].length →
        (snmpGetOutletState ⟨2⟩ (fun _ => 1) ((k : Int) + 1)).fst =
          .ok ([true, true].getD k false)) :=
  ⟨by decide,
    c6_get_all_outlet_states ⟨2⟩ (fun _ => 1) [true, true]
      [.get (outletStatusOid 1), .get (outletStatusOid 2)] (by decide)⟩

/-- C7: on a valid outlet index the Telnet `send_outlet_command` writes
exactly one line — the `oltctrl` command line built from the outlet number
and the action word on/off/reboot — then drains, and never reads (no
`readuntil` in the trace: the acknowledgement is not awaited). -/
theorem c7_telnet_command_encoding (s : TelnetPDU) (outlet : Int) (command : OutletCommand)
    (h1 : 0 < outlet) (h2 : outlet ≤ s.number_of_outlets) :
    telnetSendOutletCommand s outlet command =
      (.ok (), [.write (telnetCommandLine outlet command), .drain]) ∧
    OutletCommand.IMMEDIATE_ON.to_telnet_action = "on" ∧
    OutletCommand.IMMEDIATE_OFF.to_telnet_action = "off" ∧
    OutletCommand.IMMEDIATE_REBOOT.to_telnet_action = "reboot" ∧
    (∀ marker : String,
      TelnetOp.readuntil marker ∉ (telnetSendOutletCommand s outlet command).2) := by
  have hcmd : telnetSendOutletCommand s outlet command =
      (.ok (), [.write (telnetCommandLine outlet command), .drain]) := by
    unfold telnetSendOutletCommand
    rw [validOutletIndex_valid h1 h2]
  refine ⟨hcmd, rfl, rfl, rfl, ?_⟩
  intro marker
  rw [hcmd]
  simp

/-- C7 witness: `send_outlet_command(5, IMMEDIATE_REBOOT)` on an
8-outlet client emits the literal line `"oltctrl index 5 act reboot\r\n"`
followed by a drain, and nothing else. -/
theorem c7_witness :
    ((0 : Int) < 5 ∧ (5 : Int) ≤ (8 : Int)) ∧
    telnetCommandLine 5 .IMMEDIATE_REBOOT = "oltctrl index 5 act reboot\r\n" ∧
    telnetSendOutletCommand ⟨8⟩ 5 .IMMEDIATE_REBOOT =
      (.ok (), [.write "oltctrl index 5 act reboot\r\n", .drain]) :=
  ⟨⟨by decide, by decide⟩, by decide,
    ((c7_telnet_command_encoding ⟨8⟩ 5 .IMMEDIATE_REBOOT (by decide) (by decide)).1).trans
      (by decide)⟩

/-- C8: on a bank index accepted by validation, the SNMP bank-load read
performs one get on the bank-load OID and returns exactly the wire integer
divided by 10 (Python's float division by 10 of these small integers is
modelled as exact rational division; the claim's instance 37 to 3.7 denotes
the same IEEE double on both sides in Python).  The second conjunct states
the same divide-by-10 decode for the unvalidated private
`__get_bank_load` of the puresnmp client. -/
theorem c8_bank_load_decode (s : AsyncSnmpPDU) (device : String → Int) (bank : Int)
    (h1 : 0 < bank) (h2 : bank ≤ s.number_of_banks) :
    asyncGetBankLoad s device bank =
      (.ok ((device (bankLoadOid bank) : Rat) / 10), [.get (bankLoadOid bank)]) ∧
    snmpGetBankLoadRaw device bank =
      (.ok ((device (bankLoadOid bank) : Rat) / 10), [.get (bankLoadOid bank)]) := by
  constructor
  · unfold asyncGetBankLoad
    rw [if_pos ⟨h1, h2⟩]
  · rfl

/-- C8 witness: a wire integer of 37 on bank 1 of a 2-bank client decodes
to exactly 3.7 amps. -/
theorem c8_witness :
    ((0 : Int) < 1 ∧ (1 : Int) ≤ (2 : Int)) ∧
    asyncGetBankLoad ⟨2, 8⟩ (fun _ => 37) 1 = (.ok (3.7 : Rat), [.get (bankLoadOid 1)]) :=
  ⟨⟨by decide, by decide⟩, by
    have h := (c8_bank_load_decode ⟨2, 8⟩ (fun _ => 37) 1 (by decide) (by decide)).1
    rw [h]
    norm_num⟩

/-- C9: the Telnet `get_bank_load` unconditionally raises
`NotImplementedError` (spec: `UnsupportedOperationError`), for every
session state and every bank index, with an empty stream trace: no index
validation and no stream traffic happen. -/
theorem c9_telnet_bank_load_unsupported (s : TelnetPDU) (bank : Int) :
    telnetGetBankLoad s bank =
      (.error (.notImplementedError "This method is not implemented in the telnet API"), []) :=
  rfl

/-- C10: a cached outlet count of 0 is the sole not-initialized sentinel of
both hardware clients: initializing the SNMP client against a device that
reports 0 outlets produces a state identical to the never-initialized one,
and on that state the count query and every index-validated operation raise
the not-initialized `RuntimeError` (for the Telnet client, whose
initialization derives the count from a parsed non-empty mapping, any
returned state dict is non-empty, so a zero count can only mean
never-initialized). -/
theorem c10_zero_count_sentinel :
    ((snmpSetup (fun _ => 0)).fst = snmpUninit) ∧
    (snmpNumberOfOutlets snmpUninit = .error notInitError) ∧
    (∀ (device : String → Int) (outlet : Int),
      snmpGetOutletState snmpUninit device outlet = (.error notInitError, [])) ∧
    (∀ (device : String → Int) (outlet : Int) (command : OutletCommand),
      snmpSendOutletCommand snmpUninit device outlet command = (.error notInitError, [])) ∧
    (∀ device : String → Int,
      snmpGetAllOutletStates snmpUninit device = (.error notInitError, [])) ∧
    (telnetNumberOfOutlets telnetUninit = .error notInitError) ∧
    (∀ (responses : List String) (outlet : Int),
      telnetGetOutletState telnetUninit responses outlet = some (.error notInitError, 0)) ∧
    (∀ (outlet : Int) (command : OutletCommand),
      telnetSendOutletCommand telnetUninit outlet command = (.error notInitError, [])) ∧
    (∀ (rs : List String) (n : Nat) (m : List (Int × Bool)),
      telnetGetOutletStatesLoop rs = .ok (some (n, m)) → m.length ≠ 0) :=
  ⟨by decide, rfl, snmpGetOutletState_uninit, snmpSendOutletCommand_uninit,
    snmpGetAllOutletStates_uninit, rfl, telnetGetOutletState_uninit,
    telnetSendOutletCommand_uninit,
    fun rs n m h => by
      have := loop_some_ne_nil rs n m h
      simpa [List.length_eq_zero] using this⟩

/-- C10 witness: discharging the hypothesis of the last conjunct at the
sample page: the loop returns a mapping of non-zero length. -/
theorem c10_witness :
    telnetGetOutletStatesLoop ["1  Outlet1   On"] = .ok (some (1, [(1, true)])) ∧
    ([(1, true)] : List (Int × Bool)).length ≠ 0 :=
  ⟨by decide,
    c10_zero_count_sentinel.2.2.2.2.2.2.2.2 ["1  Outlet1   On"] 1 [(1, true)] (by decide)⟩
